import Mathlib

/-!
Verification of the ai-traffic-control simulator's core decision logic.

The Python sources (src/config.py, src/entities/traffic_light.py,
src/entities/vehicle.py, src/entities/pedestrian.py, src/entities/agent.py,
src/simulation.py) are shallowly embedded below.  Machine floats are
modelled as exact rationals (ℚ), pygame integer rectangles as ℤ records
with pygame's collision and inflation semantics, and Python object
identity as a numeric id field.  `math.sqrt`, which the sources apply to
a float, is passed in as an explicit function parameter `sq : ℚ → ℚ`;
theorems that depend on its behaviour take the needed property of `sq`
as a hypothesis.
-/

/-! ## Configuration constants (src/config.py) -/

def WIDTH : ℤ := 800

def FPS : ℚ := 60

def CAR_SPEED : ℚ := 3

def PEDESTRIAN_SPEED : ℚ := 1

def MIN_GREEN_TIME : ℕ := 240

def YELLOW_TIME : ℕ := 90

def LANE_WIDTH : ℤ := 60

def ROAD_WIDTH : ℤ := LANE_WIDTH * 2

def INTERSECTION_CENTER : ℤ := WIDTH / 2

def STOP_MARGIN : ℤ := ROAD_WIDTH / 2 + 20

def CW_OFFSET : ℤ := 60

def CW_WIDTH : ℤ := 40

def PATIENCE_THRESHOLD : ℚ := 3

def RAYCAST_MIN_DIST : ℤ := 12

def DESPAWN_TIME : ℚ := 1

def BRAKING_TIME : ℚ := 3/2

def ACCELERATION_RATE : ℚ := 1/10

def DECELERATION_RATE : ℚ := 3/20

def SENSOR_WIDTH_PADDING : ℤ := 30

def SAFE_HALT_DISTANCE : ℚ := 40

def STOPPING_DISTANCE_BUFFER : ℚ := 6/5

/-! ## pygame geometry

`Rect` is pygame's integer rectangle.  `colliderect` is strict overlap
(touching edges do not collide), `collidepoint` includes the left/top
edges and excludes right/bottom, and `inflate` grows around the centre,
offsetting the corner by half the growth (C integer division); these are
pygame's documented semantics. -/

structure Rect where
  x : ℤ
  y : ℤ
  w : ℤ
  h : ℤ
  deriving DecidableEq, Repr

def Rect.left (r : Rect) : ℤ := r.x

def Rect.right (r : Rect) : ℤ := r.x + r.w

def Rect.top (r : Rect) : ℤ := r.y

def Rect.bottom (r : Rect) : ℤ := r.y + r.h

def Rect.centerx (r : Rect) : ℤ := r.x + r.w / 2

def Rect.centery (r : Rect) : ℤ := r.y + r.h / 2

def Rect.colliderect (a b : Rect) : Bool :=
  decide (a.x < b.x + b.w) && decide (a.y < b.y + b.h) &&
  decide (b.x < a.x + a.w) && decide (b.y < a.y + a.h)

def Rect.collidepoint (r : Rect) (px py : ℤ) : Bool :=
  decide (r.x ≤ px) && decide (px < r.x + r.w) &&
  decide (r.y ≤ py) && decide (py < r.y + r.h)

def Rect.inflate (r : Rect) (dx dy : ℤ) : Rect :=
  ⟨r.x - dx / 2, r.y - dy / 2, r.w + dx, r.h + dy⟩

/-- Python `int()` applied to a float: truncation toward zero. -/
def py_int (q : ℚ) : ℤ := if q < 0 then -((-q).floor) else q.floor

/-! ## Traffic light (src/entities/traffic_light.py) -/

inductive LightState
  | NS_GREEN
  | NS_YELLOW
  | EW_GREEN
  | EW_YELLOW
  deriving DecidableEq, Repr

inductive Axis
  | NS
  | EW
  deriving DecidableEq, Repr

/-- The per-axis colours the light publishes; only the ON constants ever
leave `get_color_state`, so the RGB tuples are abstracted to an enum. -/
inductive Color
  | GREEN_ON
  | YELLOW_ON
  | RED_ON
  deriving DecidableEq, Repr

structure TrafficLight where
  state : LightState
  timer : ℕ
  emergency_mode : Bool
  deriving DecidableEq, Repr

def TrafficLight.update (tl : TrafficLight) (qNS qEW : ℕ) : TrafficLight :=
  if tl.emergency_mode then tl
  else
    let t := tl.timer + 1
    match tl.state with
    | .NS_GREEN =>
        if MIN_GREEN_TIME < t ∧ qNS < qEW then ⟨.NS_YELLOW, 0, tl.emergency_mode⟩
        else ⟨.NS_GREEN, t, tl.emergency_mode⟩
    | .NS_YELLOW =>
        if YELLOW_TIME ≤ t then ⟨.EW_GREEN, 0, tl.emergency_mode⟩
        else ⟨.NS_YELLOW, t, tl.emergency_mode⟩
    | .EW_GREEN =>
        if MIN_GREEN_TIME < t ∧ qEW < qNS then ⟨.EW_YELLOW, 0, tl.emergency_mode⟩
        else ⟨.EW_GREEN, t, tl.emergency_mode⟩
    | .EW_YELLOW =>
        if YELLOW_TIME ≤ t then ⟨.NS_GREEN, 0, tl.emergency_mode⟩
        else ⟨.EW_YELLOW, t, tl.emergency_mode⟩

def TrafficLight.get_color_state (tl : TrafficLight) (axis : Axis) : Color :=
  match axis with
  | .NS =>
      match tl.state with
      | .NS_GREEN => .GREEN_ON
      | .NS_YELLOW => .YELLOW_ON
      | _ => .RED_ON
  | .EW =>
      match tl.state with
      | .EW_GREEN => .GREEN_ON
      | .EW_YELLOW => .YELLOW_ON
      | _ => .RED_ON

def TrafficLight.apply_action (tl : TrafficLight) (action : ℤ) : TrafficLight :=
  if tl.emergency_mode = true ∨ tl.timer < MIN_GREEN_TIME then tl
  else if action = 1 then
    match tl.state with
    | .NS_GREEN => ⟨.NS_YELLOW, 0, tl.emergency_mode⟩
    | .EW_GREEN => ⟨.EW_YELLOW, 0, tl.emergency_mode⟩
    | _ => tl
  else tl

/-! ## Pedestrian (src/entities/pedestrian.py) -/

inductive PedState
  | WALKING
  | DOWN
  deriving DecidableEq, Repr

structure Pedestrian where
  x : ℚ
  y : ℚ
  target_x : ℚ
  target_y : ℚ
  crossing_axis : Axis
  control_axis : Axis
  rect : Rect
  walking : Bool
  done : Bool
  state : PedState
  down_timer : ℚ
  dir_x : ℚ
  dir_y : ℚ
  deriving DecidableEq, Repr

/-- `Pedestrian.hit`; `now` stands for `pygame.time.get_ticks()` at the
moment of the call (milliseconds). -/
def Pedestrian.hit (p : Pedestrian) (now : ℚ) : Pedestrian :=
  if p.state ≠ .DOWN then { p with state := .DOWN, down_timer := now } else p

/-! ## Vehicle (src/entities/vehicle.py)

Python compares vehicles by object identity (`is`, `in`, `.index`); the
embedding gives each vehicle a numeric identity `vid` and assumes, as the
orchestrator guarantees by construction, that distinct vehicles carry
distinct ids.  The junction reservation ledger `sim.junction_reservation`
is the list of the registered vehicles' ids. -/

inductive Direction
  | N
  | S
  | E
  | W
  deriving DecidableEq, Repr

/-- `axis = "NS" if self.origin in ["N", "S"] else "EW"`. -/
def Direction.axis : Direction → Axis
  | .N => .NS
  | .S => .NS
  | .E => .EW
  | .W => .EW

structure Vehicle where
  vid : ℕ
  x : ℚ
  y : ℚ
  direction : ℤ × ℤ
  origin : Direction
  is_emergency : Bool
  width : ℤ
  height : ℤ
  rect : Rect
  current_speed : ℚ
  target_speed : ℚ
  stopped : Bool
  patience : ℚ
  ignore_npc : Bool
  cached_sensor_rect : Option Rect
  last_look_ahead : ℚ
  deriving DecidableEq, Repr

def Vehicle.dist_to_stop_line (v : Vehicle) : ℤ :=
  match v.origin with
  | .N => (INTERSECTION_CENTER - STOP_MARGIN) - v.rect.bottom
  | .S => v.rect.top - (INTERSECTION_CENTER + STOP_MARGIN)
  | .E => v.rect.left - (INTERSECTION_CENTER + STOP_MARGIN)
  | .W => (INTERSECTION_CENTER - STOP_MARGIN) - v.rect.right

def Vehicle.dist_to_crosswalk_entrance (v : Vehicle) : ℤ :=
  match v.origin with
  | .N => ((INTERSECTION_CENTER - STOP_MARGIN) - CW_OFFSET) - v.rect.bottom
  | .S => v.rect.top - ((INTERSECTION_CENTER + STOP_MARGIN) + CW_OFFSET)
  | .E => v.rect.left - ((INTERSECTION_CENTER + STOP_MARGIN) + CW_OFFSET)
  | .W => ((INTERSECTION_CENTER - STOP_MARGIN) - CW_OFFSET) - v.rect.right

/-- `_get_dist_between(self, car1, car2)`, always called with `car1 = self`;
the branch is on `self.origin`. -/
def Vehicle.dist_between (v : Vehicle) (car1 car2 : Vehicle) : ℤ :=
  match v.origin with
  | .N => car2.rect.top - car1.rect.bottom
  | .S => car1.rect.top - car2.rect.bottom
  | .W => car2.rect.left - car1.rect.right
  | .E => car1.rect.left - car2.rect.right

/-- The dynamic sensor length `max(50.0, v * BRAKING_TIME * FPS * buffer)`. -/
def Vehicle.look_ahead (v : Vehicle) : ℚ :=
  max 50 (v.current_speed * BRAKING_TIME * FPS * STOPPING_DISTANCE_BUFFER)

/-- `_get_optimized_sensor_rect`: returns the (possibly cached) sensor
rectangle together with the vehicle carrying the refreshed cache fields.
pygame truncates the float `length` when it becomes a rect width/height,
and assigning `left`/`right`/`top`/`bottom` translates the rect. -/
def Vehicle.fresh_sensor_rect (v : Vehicle) (length : ℚ) : Rect × Vehicle :=
  let r :=
    if v.direction.1 ≠ 0 then
      let base : Rect := ⟨0, v.rect.y - SENSOR_WIDTH_PADDING, py_int length,
        v.height + 2 * SENSOR_WIDTH_PADDING⟩
      if v.direction.1 > 0 then { base with x := v.rect.right + RAYCAST_MIN_DIST }
      else { base with x := v.rect.left - RAYCAST_MIN_DIST - base.w }
    else
      let base : Rect := ⟨v.rect.x - SENSOR_WIDTH_PADDING, 0,
        v.width + 2 * SENSOR_WIDTH_PADDING, py_int length⟩
      if v.direction.2 > 0 then { base with y := v.rect.bottom + RAYCAST_MIN_DIST }
      else { base with y := v.rect.top - RAYCAST_MIN_DIST - base.h }
  (r, { v with cached_sensor_rect := some r, last_look_ahead := length })

def Vehicle.get_optimized_sensor_rect (v : Vehicle) (length : ℚ) : Rect × Vehicle :=
  match v.cached_sensor_rect with
  | some cached =>
      if v.last_look_ahead = length then (cached, v)
      else Vehicle.fresh_sensor_rect v length
  | none => Vehicle.fresh_sensor_rect v length

/-- The sensor rectangle `_check_pedestrians` scans with this tick
(the cached-or-fresh rect for the current look-ahead). -/
def Vehicle.scan_rect (v : Vehicle) : Rect :=
  (v.get_optimized_sensor_rect v.look_ahead).1

/-- The squared centre distance `dx*dx + dy*dy` fed to `math.sqrt` in
`_check_pedestrians`. -/
def Vehicle.ped_dist_sq (v : Vehicle) (p : Pedestrian) : ℚ :=
  ((v.rect.centerx : ℚ) - p.x) * ((v.rect.centerx : ℚ) - p.x) +
  ((v.rect.centery : ℚ) - p.y) * ((v.rect.centery : ℚ) - p.y)

/-- The `for p in pedestrians` loop of `_check_pedestrians`.  `return 0.0`
inside the loop is modelled by answering `0` at once: the skipped tail
could only have lowered `min_v` toward `0` and the loop has no other
effect. -/
def Vehicle.ped_loop (v : Vehicle) (sq : ℚ → ℚ) (scan : Rect) (look : ℚ) :
    List Pedestrian → ℚ → ℚ
  | [], min_v => min_v
  | p :: rest, min_v =>
      if p.done = true ∨ p.state = .DOWN then v.ped_loop sq scan look rest min_v
      else if scan.colliderect (p.rect.inflate 20 20) then
        let dist := sq (v.ped_dist_sq p)
        if dist < SAFE_HALT_DISTANCE then 0
        else
          let yield_factor := (dist - SAFE_HALT_DISTANCE) / look
          v.ped_loop sq scan look rest (min min_v (CAR_SPEED * max 0 yield_factor))
      else v.ped_loop sq scan look rest min_v

/-- `_check_pedestrians`: priority-1 pedestrian safety layer.  Returns the
safe velocity and the vehicle with its sensor cache refreshed. -/
def Vehicle.check_pedestrians (v : Vehicle) (sq : ℚ → ℚ)
    (pedestrians : List Pedestrian) : ℚ × Vehicle :=
  if v.is_emergency = true ∨ v.ignore_npc = true ∨ pedestrians.isEmpty then
    (CAR_SPEED, v)
  else
    let look := v.look_ahead
    let sr := v.get_optimized_sensor_rect look
    (sr.2.ped_loop sq sr.1 look pedestrians CAR_SPEED, sr.2)

/-! ## Rule-compliance layer (`_check_traffic_rules` and its helpers) -/

def intersection_rect : Rect :=
  ⟨INTERSECTION_CENTER - ROAD_WIDTH / 2, INTERSECTION_CENTER - ROAD_WIDTH / 2,
   ROAD_WIDTH, ROAD_WIDTH⟩

/-- `_is_exit_clear`: the fixed 60-unit projection zone past the junction
in the vehicle's travel direction. -/
def Vehicle.exit_rect (v : Vehicle) : Rect :=
  if v.direction.1 = 1 then
    ⟨INTERSECTION_CENTER + ROAD_WIDTH / 2, v.rect.y, 60, v.height⟩
  else if v.direction.1 = -1 then
    ⟨INTERSECTION_CENTER - ROAD_WIDTH / 2 - 60, v.rect.y, 60, v.height⟩
  else if v.direction.2 = 1 then
    ⟨v.rect.x, INTERSECTION_CENTER + ROAD_WIDTH / 2, v.width, 60⟩
  else
    ⟨v.rect.x, INTERSECTION_CENTER - ROAD_WIDTH / 2 - 60, v.width, 60⟩

def Vehicle.is_exit_clear (v : Vehicle) (all_cars : List Vehicle) : Bool :=
  !(all_cars.any fun other =>
    decide (other.vid ≠ v.vid) &&
    other.rect.colliderect ((v.exit_rect).inflate 10 10))

/-- `_would_stop_on_crosswalk`. -/
def Vehicle.would_stop_on_crosswalk (v : Vehicle) (dist_to_car : ℤ) : Bool :=
  let stop_pos_sl := v.dist_to_stop_line - dist_to_car
  decide (CW_OFFSET - CW_WIDTH - 10 < stop_pos_sl) && decide (stop_pos_sl < CW_OFFSET + 10)

/-- Step 4 of `_check_traffic_rules` (the adaptive-cruise loop): any other
same-origin car at distance strictly between 0 and 50 commands a stop —
in the source both branches under `if 0 < dist < 50` end in `return 0.0`,
the `_would_stop_on_crosswalk` refinement included. -/
def Vehicle.car_spacing_stop (v : Vehicle) : List Vehicle → Bool
  | [] => false
  | other :: rest =>
      if other.vid = v.vid ∨ other.origin ≠ v.origin then v.car_spacing_stop rest
      else
        let dist := v.dist_between v other
        if 0 < dist ∧ dist < 50 then true
        else v.car_spacing_stop rest

/-- `_is_intersection_blocked`. -/
def Vehicle.is_intersection_blocked (v : Vehicle) (all_cars : List Vehicle) : Bool :=
  if !((v.rect.inflate 30 30).colliderect intersection_rect) then false
  else if intersection_rect.collidepoint v.rect.centerx v.rect.centery then false
  else
    all_cars.any fun other =>
      decide (other.vid ≠ v.vid) &&
      other.rect.colliderect intersection_rect &&
      !((decide (v.direction.1 ≠ 0) && decide (other.direction.1 ≠ 0)) ||
        (decide (v.direction.2 ≠ 0) && decide (other.direction.2 ≠ 0)))

/-- Step 1 of `_check_traffic_rules` (signal logic): `True` when the
controlling axis is not green and the vehicle sits in the 5..50 proximity
band of the stop line or of the crosswalk entrance. -/
def Vehicle.signal_stop (v : Vehicle) (light : Option TrafficLight) : Bool :=
  match light with
  | none => false
  | some tl =>
      !v.is_emergency &&
      decide (tl.get_color_state v.origin.axis ≠ Color.GREEN_ON) &&
      ((decide (5 < v.dist_to_stop_line) && decide (v.dist_to_stop_line < 50)) ||
       (decide (5 < v.dist_to_crosswalk_entrance) &&
        decide (v.dist_to_crosswalk_entrance < 50)))

/-- `_check_traffic_rules`: priority-2 regulatory layer.  Returns the
commanded speed together with the junction reservation ledger, which the
FCFS step may have extended (a mutation of `sim.junction_reservation`
that persists even when a later step returns 0). -/
def Vehicle.check_traffic_rules (v : Vehicle) (light : Option TrafficLight)
    (all_cars : List Vehicle) (reservation : List ℕ) : ℚ × List ℕ :=
  if light = none ∧ v.is_emergency = false then (0, reservation)
  else if v.signal_stop light then (0, reservation)
  else
    let dsl := v.dist_to_stop_line
    let res1 :=
      if -20 < dsl ∧ dsl < 60 then
        if v.vid ∈ reservation then reservation else reservation ++ [v.vid]
      else reservation
    if (-20 < dsl ∧ dsl < 60) ∧ 1 < res1.indexOf v.vid then (0, res1)
    else if (-10 < dsl ∧ dsl < 20) ∧ v.is_exit_clear all_cars = false then (0, res1)
    else if v.car_spacing_stop all_cars then (0, res1)
    else if v.is_intersection_blocked all_cars then (0, res1)
    else (CAR_SPEED, res1)

/-! ## Patience recovery and kinematics -/

/-- The new value of `self.patience` computed at the top of
`_update_patience`. -/
def Vehicle.patience_next (v : Vehicle) (v_ped v_rules : ℚ) : ℚ :=
  if v_ped = 0 ∧ 0 < v_rules ∧ v.current_speed = 0 then v.patience + 1 / FPS
  else max 0 (v.patience - (1/2) / FPS)

/-- Whether some pedestrian's rect overlaps the vehicle's rect inflated
by the 10-unit margin (the ignore-mode exit test). -/
def Vehicle.ped_overlap (v : Vehicle) (pedestrians : List Pedestrian) : Bool :=
  pedestrians.any fun p => (v.rect.inflate 10 10).colliderect p.rect

/-- `_update_patience`. -/
def Vehicle.update_patience (v : Vehicle) (v_ped v_rules : ℚ)
    (pedestrians : List Pedestrian) : Vehicle :=
  let p1 := v.patience_next v_ped v_rules
  let ig1 := if PATIENCE_THRESHOLD < p1 then true else v.ignore_npc
  if ig1 = true ∧ v.ped_overlap pedestrians = false then
    { v with ignore_npc := false, patience := 0 }
  else
    { v with ignore_npc := ig1, patience := p1 }

/-- The speed-interpolation block at the top of `_apply_dynamics`:
accelerate toward the target clamped at it, or decelerate toward the
target clamped at it. -/
def speed_step (cs ts : ℚ) : ℚ :=
  if cs < ts then min ts (cs + ACCELERATION_RATE)
  else if ts < cs then max ts (cs - DECELERATION_RATE)
  else cs

/-- `_apply_dynamics`: asymmetric speed interpolation, snap to zero below
0.05, position and rect advance only while moving. -/
def Vehicle.apply_dynamics (v : Vehicle) : Vehicle :=
  let s1 := speed_step v.current_speed v.target_speed
  if s1 < 1/20 then { v with current_speed := 0, stopped := true }
  else
    let nx := v.x + (v.direction.1 : ℚ) * s1
    let ny := v.y + (v.direction.2 : ℚ) * s1
    { v with current_speed := s1, stopped := false, x := nx, y := ny,
             rect := { v.rect with x := py_int nx, y := py_int ny } }

/-- `Vehicle.move`: the per-tick pipeline — perception, arbitration
(`target_speed = min(v_ped, v_rules)`), patience bookkeeping, dynamics.
The simulation context `sim` enters through the reservation ledger, which
is returned updated. -/
def Vehicle.move (v : Vehicle) (sq : ℚ → ℚ) (light : Option TrafficLight)
    (all_cars : List Vehicle) (pedestrians : List Pedestrian)
    (reservation : List ℕ) : Vehicle × List ℕ :=
  let pr := v.check_pedestrians sq pedestrians
  let rr := pr.2.check_traffic_rules light all_cars reservation
  let v2 := { pr.2 with target_speed := min pr.1 rr.1 }
  let v3 := v2.update_patience pr.1 rr.1 pedestrians
  (v3.apply_dynamics, rr.2)

/-! ## Orchestrator-side ledger purge (src/simulation.py, `_update_entities`) -/

/-- The inflated junction box against which residency is checked. -/
def junction_box : Rect := intersection_rect.inflate 20 20

/-- `self.junction_reservation = [v for v in self.junction_reservation
if v in self.cars and v.rect.colliderect(box)]`. -/
def purge_reservation (cars : List Vehicle) (reservation : List ℕ) : List ℕ :=
  reservation.filter fun i =>
    cars.any fun c => decide (c.vid = i) && c.rect.colliderect junction_box

/-! ## Learning policy (src/entities/agent.py)

Only the parts the claims speak about are embedded: the bounded replay
deque and the epsilon decay at the tail of `train`.  The NumPy weight
matrices and their gradient update touch neither `self.memory` nor
`self.epsilon` and are left out of the model. -/

structure Transition where
  state : List ℚ
  action : ℤ
  reward : ℚ
  next_state : List ℚ
  terminal : Bool
  deriving DecidableEq, Repr

def MEMORY_CAPACITY : ℕ := 5000

def BATCH_SIZE : ℕ := 32

def EPSILON_MIN : ℚ := 1/20

def EPSILON_DECAY : ℚ := 199/200

/-- `append` on a `deque(maxlen=cap)`: at capacity the oldest entry is
evicted. -/
def deque_append (cap : ℕ) (m : List Transition) (t : Transition) : List Transition :=
  let m2 := m ++ [t]
  m2.drop (m2.length - cap)

/-- The effect of one `DQNAgent.train(batch_size)` call on `self.epsilon`:
an early return while the memory is short of a batch, otherwise one
multiplicative decay gated by `epsilon > epsilon_min`. -/
def train_epsilon (mem_len batch_size : ℕ) (eps : ℚ) : ℚ :=
  if mem_len < batch_size then eps
  else if EPSILON_MIN < eps then eps * EPSILON_DECAY else eps

/-- The epsilon trace of an agent created with `epsilon = 1.0` that is
trained once per step with a full batch available. -/
def epsilon_seq : ℕ → ℚ
  | 0 => 1
  | n + 1 => train_epsilon BATCH_SIZE BATCH_SIZE (epsilon_seq n)

/-- `Pedestrian.update` (the unused `all_peds`/`all_cars` arguments of the
source are dropped); `now` is `pygame.time.get_ticks()` in milliseconds
and `sq` again stands for the square root inside `math.hypot`. -/
def Pedestrian.update (p : Pedestrian) (now : ℚ) (sq : ℚ → ℚ)
    (light : Option TrafficLight) : Pedestrian :=
  if p.done = true then p
  else if p.state = .DOWN then
    if DESPAWN_TIME < (now - p.down_timer) / 1000 then { p with done := true } else p
  else
    let p1 :=
      match light with
      | some tl =>
          if p.walking = false ∧ tl.get_color_state p.control_axis = Color.RED_ON then
            { p with walking := true }
          else p
      | none => p
    if p1.walking = true then
      let nx := p1.x + p1.dir_x * PEDESTRIAN_SPEED
      let ny := p1.y + p1.dir_y * PEDESTRIAN_SPEED
      let nrect : Rect := ⟨py_int nx - p1.rect.w / 2, py_int ny - p1.rect.h / 2,
                           p1.rect.w, p1.rect.h⟩
      let moved := { p1 with x := nx, y := ny, rect := nrect }
      if sq ((moved.target_x - nx) * (moved.target_x - nx) +
             (moved.target_y - ny) * (moved.target_y - ny)) < 10 then
        { moved with done := true }
      else moved
    else p1

/-! ## Instrumented signal traces

For the temporal claim about the signal controller, a trace is a list of
`update` / `apply_action` calls applied from the freshly constructed
controller (`NS_GREEN`, timer 0, no override).  The ghost counter `age`
counts the `update` calls since the last phase change, i.e. the ticks the
controller has spent in its current phase. -/

def next_phase : LightState → LightState
  | .NS_GREEN => .NS_YELLOW
  | .NS_YELLOW => .EW_GREEN
  | .EW_GREEN => .EW_YELLOW
  | .EW_YELLOW => .NS_GREEN

inductive LStep
  | upd (qNS qEW : ℕ)
  | act (a : ℤ)
  deriving DecidableEq, Repr

def lstep : TrafficLight × ℕ → LStep → TrafficLight × ℕ
  | (tl, age), .upd qNS qEW =>
      let tl2 := tl.update qNS qEW
      (tl2, if tl2.state = tl.state then age + 1 else 0)
  | (tl, age), .act a =>
      let tl2 := tl.apply_action a
      (tl2, if tl2.state = tl.state then age else 0)

def init_light : TrafficLight := ⟨.NS_GREEN, 0, false⟩

def lrun (steps : List LStep) : TrafficLight × ℕ :=
  steps.foldl lstep (init_light, 0)

/-- Trace invariant: the override is off, the phase timer equals the
ghost tick count of the current phase, and in a yellow phase the timer
has not yet reached the fixed yellow duration. -/
def LInv (s : TrafficLight × ℕ) : Prop :=
  s.1.emergency_mode = false ∧ s.1.timer = s.2 ∧
  ((s.1.state = .NS_YELLOW ∨ s.1.state = .EW_YELLOW) → s.1.timer < YELLOW_TIME)

/-! ## Concrete fixtures used by witnesses and counterexamples -/

/-- A square-root stand-in that is exact about the halt threshold:
below `40² = 1600` it answers below `40`, at or above it answers `40`. -/
def sqrt_stub : ℚ → ℚ := fun q => if q < 1600 then 0 else 40

def tl_green : TrafficLight := ⟨.NS_GREEN, 0, false⟩

/-- A southbound car approaching the junction at full speed. -/
def car_south : Vehicle :=
  { vid := 1, x := 380, y := 200, direction := (0, 1), origin := .N,
    is_emergency := false, width := 20, height := 40,
    rect := ⟨380, 200, 20, 40⟩, current_speed := 3, target_speed := 3,
    stopped := false, patience := 0, ignore_npc := false,
    cached_sensor_rect := none, last_look_ahead := 0 }

/-- A walking pedestrian 35 units ahead of `car_south`'s centre, inside
its sensor corridor. -/
def ped_ahead : Pedestrian :=
  { x := 390, y := 255, target_x := 390, target_y := 500,
    crossing_axis := .EW, control_axis := .NS,
    rect := ⟨382, 247, 16, 16⟩, walking := true, done := false,
    state := .WALKING, down_timer := 0, dir_x := 0, dir_y := 1 }

/-- An eastbound car far from the junction (used as list filler). -/
def car_east_far : Vehicle :=
  { vid := 7, x := 600, y := 360, direction := (-1, 0), origin := .E,
    is_emergency := false, width := 40, height := 20,
    rect := ⟨600, 360, 40, 20⟩, current_speed := 3, target_speed := 3,
    stopped := false, patience := 0, ignore_npc := false,
    cached_sensor_rect := none, last_look_ahead := 0 }

/-- A westbound car far from the junction (used as list filler). -/
def car_west_far : Vehicle :=
  { vid := 8, x := 200, y := 420, direction := (1, 0), origin := .W,
    is_emergency := false, width := 40, height := 20,
    rect := ⟨200, 420, 40, 20⟩, current_speed := 3, target_speed := 3,
    stopped := false, patience := 0, ignore_npc := false,
    cached_sensor_rect := none, last_look_ahead := 0 }

/-- A southbound car that registered earlier, has been carried past the
registration band by its stopping distance, and now sits inside the
junction box with its centre inside the intersection. -/
def car_in_box : Vehicle :=
  { vid := 5, x := 370, y := 330, direction := (0, 1), origin := .N,
    is_emergency := false, width := 20, height := 40,
    rect := ⟨370, 330, 20, 40⟩, current_speed := 0, target_speed := 0,
    stopped := true, patience := 0, ignore_npc := false,
    cached_sensor_rect := none, last_look_ahead := 0 }

def cars_ledger : List Vehicle := [car_in_box, car_east_far, car_west_far]

/-- Ledger in which `car_in_box` holds rank 2 behind the two cross cars. -/
def ledger3 : List ℕ := [7, 8, 5]

/-! # Theorems -/

/-- C6: `apply_action` leaves the controller unchanged under emergency
override or before the minimum-green timer has elapsed; otherwise action
`1` in a green phase switches to the matching yellow with the timer reset
to 0, and action `0` changes nothing. -/
theorem apply_action_gating_and_switch (tl : TrafficLight) (a : ℤ) :
    (tl.emergency_mode = true → tl.apply_action a = tl) ∧
    (tl.timer < MIN_GREEN_TIME → tl.apply_action a = tl) ∧
    (tl.emergency_mode = false → MIN_GREEN_TIME ≤ tl.timer →
      (tl.state = .NS_GREEN → tl.apply_action 1 = ⟨.NS_YELLOW, 0, false⟩) ∧
      (tl.state = .EW_GREEN → tl.apply_action 1 = ⟨.EW_YELLOW, 0, false⟩)) ∧
    tl.apply_action 0 = tl := by
  obtain ⟨st, t, em⟩ := tl
  refine ⟨?_, ?_, ?_, ?_⟩
  · intro he
    have he2 : em = true := he
    simp [TrafficLight.apply_action, he2]
  · intro ht
    have ht2 : t < MIN_GREEN_TIME := ht
    simp [TrafficLight.apply_action, ht2]
  · intro he ht
    subst he
    have hlt : ¬ t < MIN_GREEN_TIME := Nat.not_lt.mpr ht
    constructor
    · intro hs
      subst hs
      simp [TrafficLight.apply_action, hlt]
    · intro hs
      subst hs
      simp [TrafficLight.apply_action, hlt]
  · simp only [TrafficLight.apply_action]
    split
    · rfl
    · rw [if_neg (by norm_num)]

/-- C9: in a yellow phase `apply_action` is a no-op for every action —
phase, timer and override flag are all unchanged. -/
theorem apply_action_yellow_frame (tl : TrafficLight) (a : ℤ)
    (h : tl.state = .NS_YELLOW ∨ tl.state = .EW_YELLOW) :
    tl.apply_action a = tl := by
  obtain ⟨st, t, em⟩ := tl
  simp only [TrafficLight.apply_action]
  split
  · rfl
  · split
    · rcases h with h | h <;> simp_all
    · rfl

/-- C9 witness: a switch request in `NS_YELLOW` with an elapsed timer and
no override still changes nothing. -/
theorem apply_action_yellow_frame_witness :
    TrafficLight.apply_action ⟨.NS_YELLOW, 300, false⟩ 1 = ⟨.NS_YELLOW, 300, false⟩ :=
  apply_action_yellow_frame ⟨.NS_YELLOW, 300, false⟩ 1 (Or.inl rfl)

/-- C10: `hit` on a pedestrian already DOWN changes nothing — in
particular the recorded knockdown timestamp survives — so a repeated
impact never extends the despawn countdown. -/
theorem hit_idempotent_on_down (p : Pedestrian) (t1 t2 : ℚ) :
    (p.state = .DOWN → p.hit t1 = p) ∧
    (p.hit t1).hit t2 = p.hit t1 ∧
    ((p.hit t1).hit t2).down_timer = (p.hit t1).down_timer := by
  by_cases h : p.state = PedState.DOWN
  · simp [Pedestrian.hit, h]
  · simp [Pedestrian.hit, h]

/-- C8: with no signal controller available the rule-compliance layer
answers a stop (speed 0) for a non-emergency vehicle without any fault,
leaving the ledger untouched; for an emergency vehicle the controller
argument is irrelevant altogether, so the fail-safe stop never applies
to it. -/
theorem missing_signal_fail_safe (v : Vehicle) (cars : List Vehicle)
    (res : List ℕ) (light : Option TrafficLight) :
    (v.is_emergency = false → v.check_traffic_rules none cars res = (0, res)) ∧
    (v.is_emergency = true →
      v.check_traffic_rules light cars res = v.check_traffic_rules none cars res) := by
  constructor
  · intro he
    simp [Vehicle.check_traffic_rules, he]
  · intro he
    cases light with
    | none => rfl
    | some tl =>
        simp [Vehicle.check_traffic_rules, he, Vehicle.signal_stop]

/-- On the trace with a full batch available, epsilon follows the pure
geometric decay for as long as it stays above the floor — in particular
through step 598. -/
theorem epsilon_seq_eq_pow : ∀ n, n ≤ 598 → epsilon_seq n = EPSILON_DECAY ^ n := by
  intro n
  induction n with
  | zero => intro _; simp [epsilon_seq]
  | succ k ih =>
      intro hk
      have hk1 : k ≤ 598 := Nat.le_of_succ_le hk
      have hk2 : k ≤ 597 := Nat.lt_succ_iff.mp hk
      have hdec : (0 : ℚ) ≤ EPSILON_DECAY := by norm_num [EPSILON_DECAY]
      have hone : EPSILON_DECAY ≤ 1 := by norm_num [EPSILON_DECAY]
      have hmono : EPSILON_DECAY ^ 597 ≤ EPSILON_DECAY ^ k :=
        pow_le_pow_of_le_one hdec hone hk2
      have h597 : EPSILON_MIN < EPSILON_DECAY ^ 597 := by
        norm_num [EPSILON_MIN, EPSILON_DECAY]
      have hgt : EPSILON_MIN < epsilon_seq k := by
        rw [ih hk1]; exact lt_of_lt_of_le h597 hmono
      simp only [epsilon_seq, train_epsilon]
      rw [if_neg (by norm_num [BATCH_SIZE]), if_pos hgt, ih hk1, pow_succ]

/-- C7 (amended): each training step leaves the exploration rate
non-increasing and never below `floor × decay`; the bounded replay deque
never exceeds its capacity and evicts its oldest entry when full. -/
theorem epsilon_monotone_and_buffer_bounded (mem_len batch : ℕ) (eps : ℚ)
    (m : List Transition) (t : Transition) :
    (0 ≤ eps → train_epsilon mem_len batch eps ≤ eps) ∧
    (EPSILON_MIN * EPSILON_DECAY ≤ eps →
      EPSILON_MIN * EPSILON_DECAY ≤ train_epsilon mem_len batch eps) ∧
    (deque_append MEMORY_CAPACITY m t).length ≤ MEMORY_CAPACITY ∧
    (m.length = MEMORY_CAPACITY → deque_append MEMORY_CAPACITY m t = m.tail ++ [t]) := by
  refine ⟨?_, ?_, ?_, ?_⟩
  · intro h0
    simp only [train_epsilon]
    split
    · exact le_rfl
    · split
      · exact mul_le_of_le_one_right h0 (by norm_num [EPSILON_DECAY])
      · exact le_rfl
  · intro hfl
    simp only [train_epsilon]
    split
    · exact hfl
    · split
      · rename_i hlt
        have hle : EPSILON_MIN ≤ eps := le_of_lt hlt
        exact mul_le_mul_of_nonneg_right hle (by norm_num [EPSILON_DECAY])
      · exact hfl
  · simp only [deque_append, List.length_drop, List.length_append]
    omega
  · intro hm
    simp only [deque_append, List.length_append, hm, List.length_singleton]
    have h1 : MEMORY_CAPACITY + 1 - MEMORY_CAPACITY = 1 := by omega
    rw [h1, List.drop_append_eq_append_drop]
    simp [hm, List.drop_one, MEMORY_CAPACITY]

/-- C7 counterexample: starting from ε = 1, the 598th training step with
a full batch available carries the exploration rate strictly below its
configured floor (the decay is gated by `ε > floor`, so the last decay
starts just above the floor and finishes below it). -/
theorem epsilon_dips_below_floor : epsilon_seq 598 < EPSILON_MIN := by
  rw [epsilon_seq_eq_pow 598 le_rfl]
  norm_num [EPSILON_MIN, EPSILON_DECAY]

/-- C5: patience accumulates exactly in the ticks where the pedestrian
layer forces a stop while the rule layer would allow motion and the
vehicle stands still, and is decremented (clamped at 0) otherwise;
once the accumulated patience passes the threshold the vehicle is in
ignore-pedestrian mode, and — whenever it is in that mode — it leaves it
with patience reset to zero exactly when no pedestrian's bounding region
overlaps its inflated bounding box. -/
theorem patience_escape_spec (v : Vehicle) (v_ped v_rules : ℚ)
    (peds : List Pedestrian) :
    ((v_ped = 0 ∧ 0 < v_rules ∧ v.current_speed = 0) →
      v.patience_next v_ped v_rules = v.patience + 1 / FPS) ∧
    (¬ (v_ped = 0 ∧ 0 < v_rules ∧ v.current_speed = 0) →
      v.patience_next v_ped v_rules = max 0 (v.patience - (1/2) / FPS)) ∧
    (PATIENCE_THRESHOLD < v.patience_next v_ped v_rules →
      v.ped_overlap peds = true →
      (v.update_patience v_ped v_rules peds).ignore_npc = true) ∧
    ((v.ignore_npc = true ∨ PATIENCE_THRESHOLD < v.patience_next v_ped v_rules) →
      (((v.update_patience v_ped v_rules peds).ignore_npc = false ∧
        (v.update_patience v_ped v_rules peds).patience = 0) ↔
        v.ped_overlap peds = false)) := by
  refine ⟨?_, ?_, ?_, ?_⟩
  · intro h
    simp [Vehicle.patience_next, h]
  · intro h
    simp [Vehicle.patience_next, h]
  · intro hthr hov
    simp [Vehicle.update_patience, hthr, hov]
  · intro hmode
    by_cases hthr : PATIENCE_THRESHOLD < v.patience_next v_ped v_rules
    · by_cases hov : v.ped_overlap peds = false
      · simp [Vehicle.update_patience, hthr, hov]
      · simp [Vehicle.update_patience, hthr, hov]
    · have hig : v.ignore_npc = true := by
        rcases hmode with h | h
        · exact h
        · exact absurd h hthr
      by_cases hov : v.ped_overlap peds = false
      · simp [Vehicle.update_patience, hthr, hov, hig]
      · simp [Vehicle.update_patience, hthr, hov, hig]

/-- The pedestrian scan loop never answers a negative speed and never
raises the running minimum. -/
theorem ped_loop_bounds (v : Vehicle) (sq : ℚ → ℚ) (scan : Rect) (look : ℚ)
    (l : List Pedestrian) (m : ℚ) (hm : 0 ≤ m) :
    0 ≤ v.ped_loop sq scan look l m ∧ v.ped_loop sq scan look l m ≤ m := by
  induction l generalizing m with
  | nil =>
      simp only [Vehicle.ped_loop]
      exact ⟨hm, le_rfl⟩
  | cons p rest ih =>
      simp only [Vehicle.ped_loop]
      split
      · exact ih m hm
      · split
        · split
          · exact ⟨le_rfl, hm⟩
          · have hc : 0 ≤ CAR_SPEED *
                max 0 ((sq (v.ped_dist_sq p) - SAFE_HALT_DISTANCE) / look) :=
              mul_nonneg (by norm_num [CAR_SPEED]) (le_max_left _ _)
            have hmin : 0 ≤ min m (CAR_SPEED *
                max 0 ((sq (v.ped_dist_sq p) - SAFE_HALT_DISTANCE) / look)) :=
              le_min hm hc
            obtain ⟨ih1, ih2⟩ := ih _ hmin
            exact ⟨ih1, le_trans ih2 (min_le_left _ _)⟩
        · exact ih m hm

/-- The pedestrian layer's output lies in `[0, CAR_SPEED]`. -/
theorem check_pedestrians_bounds (v : Vehicle) (sq : ℚ → ℚ)
    (peds : List Pedestrian) :
    0 ≤ (v.check_pedestrians sq peds).1 ∧
    (v.check_pedestrians sq peds).1 ≤ CAR_SPEED := by
  simp only [Vehicle.check_pedestrians]
  split
  · norm_num [CAR_SPEED]
  · exact ped_loop_bounds _ sq _ _ peds CAR_SPEED (by norm_num [CAR_SPEED])

/-- The rule layer only ever answers `0` or the full lane speed. -/
theorem check_traffic_rules_value (v : Vehicle) (light : Option TrafficLight)
    (cars : List Vehicle) (res : List ℕ) :
    (v.check_traffic_rules light cars res).1 = 0 ∨
    (v.check_traffic_rules light cars res).1 = CAR_SPEED := by
  simp only [Vehicle.check_traffic_rules]
  split_ifs <;> simp

/-- The sensor-cache refresh does not touch the kinematic fields. -/
theorem get_optimized_frame (v : Vehicle) (len : ℚ) :
    (v.get_optimized_sensor_rect len).2.current_speed = v.current_speed := by
  unfold Vehicle.get_optimized_sensor_rect
  split
  · split
    · rfl
    · unfold Vehicle.fresh_sensor_rect
      rfl
  · unfold Vehicle.fresh_sensor_rect
    rfl

/-- The pedestrian layer leaves the current speed unchanged. -/
theorem check_pedestrians_frame (v : Vehicle) (sq : ℚ → ℚ)
    (peds : List Pedestrian) :
    (v.check_pedestrians sq peds).2.current_speed = v.current_speed := by
  unfold Vehicle.check_pedestrians
  split
  · rfl
  · exact get_optimized_frame v _

/-- `_update_patience` only touches `patience` and `ignore_npc`. -/
theorem update_patience_frame (v : Vehicle) (a b : ℚ) (peds : List Pedestrian) :
    (v.update_patience a b peds).current_speed = v.current_speed ∧
    (v.update_patience a b peds).target_speed = v.target_speed := by
  simp only [Vehicle.update_patience]
  split_ifs <;> exact ⟨rfl, rfl⟩

/-- The asymmetric interpolation step stays inside `[0, CAR_SPEED]` when
both the current and the target speed do. -/
theorem speed_step_bounds (cs ts : ℚ) (h0 : 0 ≤ cs) (h1 : cs ≤ CAR_SPEED)
    (t0 : 0 ≤ ts) (t1 : ts ≤ CAR_SPEED) :
    0 ≤ speed_step cs ts ∧ speed_step cs ts ≤ CAR_SPEED := by
  unfold speed_step
  split_ifs with hlt hgt
  · constructor
    · refine le_min t0 ?_
      simp only [ACCELERATION_RATE]
      linarith
    · exact le_trans (min_le_left _ _) t1
  · constructor
    · exact le_trans t0 (le_max_left _ _)
    · refine max_le t1 ?_
      simp only [DECELERATION_RATE]
      linarith
  · exact ⟨h0, h1⟩

/-- `_apply_dynamics` keeps the speed in range, snaps below 0.05 to an
exact stop, and sets `stopped` exactly on that snap. -/
theorem apply_dynamics_spec (v : Vehicle)
    (h0 : 0 ≤ v.current_speed) (h1 : v.current_speed ≤ CAR_SPEED)
    (t0 : 0 ≤ v.target_speed) (t1 : v.target_speed ≤ CAR_SPEED) :
    0 ≤ v.apply_dynamics.current_speed ∧
    v.apply_dynamics.current_speed ≤ CAR_SPEED ∧
    (v.apply_dynamics.stopped = true ↔ v.apply_dynamics.current_speed < 1/20) ∧
    (v.apply_dynamics.stopped = true → v.apply_dynamics.current_speed = 0) := by
  obtain ⟨hs0, hs1⟩ := speed_step_bounds v.current_speed v.target_speed h0 h1 t0 t1
  by_cases hsnap : speed_step v.current_speed v.target_speed < 1/20
  · have hcs : v.apply_dynamics.current_speed = 0 := by
      simp only [Vehicle.apply_dynamics, if_pos hsnap]
    have hst : v.apply_dynamics.stopped = true := by
      simp only [Vehicle.apply_dynamics, if_pos hsnap]
    rw [hcs, hst]
    norm_num [CAR_SPEED]
  · have hcs : v.apply_dynamics.current_speed =
        speed_step v.current_speed v.target_speed := by
      simp only [Vehicle.apply_dynamics, if_neg hsnap]
    have hst : v.apply_dynamics.stopped = false := by
      simp only [Vehicle.apply_dynamics, if_neg hsnap]
    rw [hcs, hst]
    refine ⟨hs0, hs1, ?_, ?_⟩
    · constructor
      · intro h
        simp at h
      · intro h
        exact absurd h hsnap
    · intro h
      simp at h

/-- C4: after `move`, the current speed lies in `[0, CAR_SPEED]`, the
`stopped` flag holds exactly when the current speed is below the
snap-to-zero epsilon 0.05, and a stopped vehicle's speed is exactly 0. -/
theorem move_speed_invariant (v : Vehicle) (sq : ℚ → ℚ)
    (light : Option TrafficLight) (cars : List Vehicle)
    (peds : List Pedestrian) (res : List ℕ)
    (h0 : 0 ≤ v.current_speed) (h1 : v.current_speed ≤ CAR_SPEED) :
    0 ≤ (v.move sq light cars peds res).1.current_speed ∧
    (v.move sq light cars peds res).1.current_speed ≤ CAR_SPEED ∧
    ((v.move sq light cars peds res).1.stopped = true ↔
      (v.move sq light cars peds res).1.current_speed < 1/20) ∧
    ((v.move sq light cars peds res).1.stopped = true →
      (v.move sq light cars peds res).1.current_speed = 0) := by
  have hped := check_pedestrians_bounds v sq peds
  have hframe := check_pedestrians_frame v sq peds
  set pr := v.check_pedestrians sq peds with hpr
  have hrule := check_traffic_rules_value pr.2 light cars res
  set rr := pr.2.check_traffic_rules light cars res with hrr
  have hr0 : 0 ≤ rr.1 := by
    rcases hrule with h | h <;> rw [h]
    norm_num [CAR_SPEED]
  set v2 : Vehicle := { pr.2 with target_speed := min pr.1 rr.1 } with hv2
  set v3 := v2.update_patience pr.1 rr.1 peds with hv3
  have hmove : (v.move sq light cars peds res).1 = v3.apply_dynamics := rfl
  rw [hmove]
  have hcs : v3.current_speed = v.current_speed := by
    rw [hv3, (update_patience_frame v2 pr.1 rr.1 peds).1]
    exact hframe
  have hts : v3.target_speed = min pr.1 rr.1 := by
    rw [hv3, (update_patience_frame v2 pr.1 rr.1 peds).2]
  have ht0 : 0 ≤ v3.target_speed := by
    rw [hts]
    exact le_min hped.1 hr0
  have ht1 : v3.target_speed ≤ CAR_SPEED := by
    rw [hts]
    exact le_trans (min_le_left _ _) hped.2
  have hc0 : 0 ≤ v3.current_speed := by rw [hcs]; exact h0
  have hc1 : v3.current_speed ≤ CAR_SPEED := by rw [hcs]; exact h1
  exact apply_dynamics_spec v3 hc0 hc1 ht0 ht1

/-- C4 witness: the invariant instantiated on a concrete free-flowing
eastbound car. -/
theorem move_speed_invariant_witness :
    0 ≤ (car_east_far.move sqrt_stub (some tl_green) [] [] []).1.current_speed ∧
    (car_east_far.move sqrt_stub (some tl_green) [] [] []).1.current_speed ≤ CAR_SPEED ∧
    ((car_east_far.move sqrt_stub (some tl_green) [] [] []).1.stopped = true ↔
      (car_east_far.move sqrt_stub (some tl_green) [] [] []).1.current_speed < 1/20) ∧
    ((car_east_far.move sqrt_stub (some tl_green) [] [] []).1.stopped = true →
      (car_east_far.move sqrt_stub (some tl_green) [] [] []).1.current_speed = 0) :=
  move_speed_invariant car_east_far sqrt_stub (some tl_green) [] [] []
    (by with_unfolding_all decide) (by with_unfolding_all decide)

/-- Frame: the cache refresh keeps the vehicle's rect. -/
theorem get_optimized_rect_frame (v : Vehicle) (len : ℚ) :
    (v.get_optimized_sensor_rect len).2.rect = v.rect := by
  unfold Vehicle.get_optimized_sensor_rect
  split
  · split
    · rfl
    · unfold Vehicle.fresh_sensor_rect
      rfl
  · unfold Vehicle.fresh_sensor_rect
    rfl

/-- The squared centre distance only reads the vehicle's rect. -/
theorem ped_dist_sq_congr (v1 v2 : Vehicle) (p : Pedestrian)
    (h : v1.rect = v2.rect) : v1.ped_dist_sq p = v2.ped_dist_sq p := by
  simp [Vehicle.ped_dist_sq, h]

/-- `_apply_dynamics` never changes the target speed. -/
theorem apply_dynamics_target_frame (v : Vehicle) :
    v.apply_dynamics.target_speed = v.target_speed := by
  simp only [Vehicle.apply_dynamics]
  split_ifs <;> rfl

/-- Writing the target speed writes exactly the target speed. -/
theorem target_set_value (v : Vehicle) (x : ℚ) :
    ({ v with target_speed := x } : Vehicle).target_speed = x := rfl

/-- If some pedestrian in the scan list triggers the halt branch, the
scan loop answers 0 whatever else the list holds. -/
theorem ped_loop_halt (v : Vehicle) (sq : ℚ → ℚ) (scan : Rect) (look : ℚ)
    (p : Pedestrian) (hd : p.done = false) (hs : p.state ≠ .DOWN)
    (hc : scan.colliderect (p.rect.inflate 20 20) = true)
    (hlt : sq (v.ped_dist_sq p) < SAFE_HALT_DISTANCE) :
    ∀ (l : List Pedestrian) (m : ℚ), p ∈ l → v.ped_loop sq scan look l m = 0 := by
  intro l
  induction l with
  | nil =>
      intro m hp
      cases hp
  | cons q rest ih =>
      intro m hp
      simp only [Vehicle.ped_loop]
      rcases List.mem_cons.mp hp with rfl | hmem
      · rw [if_neg (by simp [hd, hs]), if_pos hc, if_pos hlt]
      · split
        · exact ih _ hmem
        · split
          · split
            · rfl
            · exact ih _ hmem
          · exact ih _ hmem

/-- The pedestrian layer answers 0 once some (alive, colliding, close)
pedestrian trips the halt branch. -/
theorem check_pedestrians_halt (v : Vehicle) (sq : ℚ → ℚ)
    (peds : List Pedestrian) (p : Pedestrian)
    (hem : v.is_emergency = false) (hig : v.ignore_npc = false)
    (hp : p ∈ peds) (hd : p.done = false) (hs : p.state ≠ .DOWN)
    (hc : (v.scan_rect).colliderect (p.rect.inflate 20 20) = true)
    (hlt : sq (v.ped_dist_sq p) < SAFE_HALT_DISTANCE) :
    (v.check_pedestrians sq peds).1 = 0 := by
  have hne : peds.isEmpty = false := by
    cases peds
    · cases hp
    · rfl
  have hrect : (v.get_optimized_sensor_rect v.look_ahead).2.rect = v.rect :=
    get_optimized_rect_frame v v.look_ahead
  have hlt2 : sq ((v.get_optimized_sensor_rect v.look_ahead).2.ped_dist_sq p) <
      SAFE_HALT_DISTANCE := by
    rw [ped_dist_sq_congr _ v p hrect]
    exact hlt
  simp only [Vehicle.check_pedestrians, hem, hig, hne]
  rw [if_neg (by simp)]
  exact ped_loop_halt _ sq _ _ p hd hs hc hlt2 peds CAR_SPEED hp

/-- The stub square root respects the halt threshold. -/
theorem sqrt_stub_spec : ∀ q : ℚ, 0 ≤ q →
    q < SAFE_HALT_DISTANCE * SAFE_HALT_DISTANCE → sqrt_stub q < SAFE_HALT_DISTANCE := by
  intro q h0 hlt
  have h1600 : q < 1600 := by
    norm_num [SAFE_HALT_DISTANCE] at hlt
    exact hlt
  simp [sqrt_stub, h1600, SAFE_HALT_DISTANCE]

/-- C2: a non-emergency vehicle not in ignore mode whose sensor rect
overlaps the inflated region of a live (not done, not DOWN) pedestrian
at centre distance strictly below the halt distance computes target
speed exactly 0 in `move` that tick (`sq` is any square root that maps
squared distances below `40²` below `40`). -/
theorem pedestrian_halt_forces_zero_target (v : Vehicle) (sq : ℚ → ℚ)
    (light : Option TrafficLight) (cars : List Vehicle)
    (peds : List Pedestrian) (res : List ℕ) (p : Pedestrian)
    (hsq : ∀ q : ℚ, 0 ≤ q → q < SAFE_HALT_DISTANCE * SAFE_HALT_DISTANCE →
      sq q < SAFE_HALT_DISTANCE)
    (hem : v.is_emergency = false) (hig : v.ignore_npc = false)
    (hp : p ∈ peds) (hd : p.done = false) (hs : p.state ≠ .DOWN)
    (hc : (v.scan_rect).colliderect (p.rect.inflate 20 20) = true)
    (hdist : v.ped_dist_sq p < SAFE_HALT_DISTANCE * SAFE_HALT_DISTANCE) :
    (v.move sq light cars peds res).1.target_speed = 0 := by
  have hnn : 0 ≤ v.ped_dist_sq p := by
    unfold Vehicle.ped_dist_sq
    exact add_nonneg (mul_self_nonneg _) (mul_self_nonneg _)
  have hlt : sq (v.ped_dist_sq p) < SAFE_HALT_DISTANCE := hsq _ hnn hdist
  have hped0 : (v.check_pedestrians sq peds).1 = 0 :=
    check_pedestrians_halt v sq peds p hem hig hp hd hs hc hlt
  have hr0 : 0 ≤ ((v.check_pedestrians sq peds).2.check_traffic_rules light cars res).1 := by
    rcases check_traffic_rules_value (v.check_pedestrians sq peds).2 light cars res with h | h <;>
      rw [h]
    norm_num [CAR_SPEED]
  have hmove : (v.move sq light cars peds res).1 =
      (({ (v.check_pedestrians sq peds).2 with
          target_speed := min (v.check_pedestrians sq peds).1
            ((v.check_pedestrians sq peds).2.check_traffic_rules light cars res).1 }).update_patience
        (v.check_pedestrians sq peds).1
        ((v.check_pedestrians sq peds).2.check_traffic_rules light cars res).1
        peds).apply_dynamics := rfl
  rw [hmove, apply_dynamics_target_frame, (update_patience_frame _ _ _ _).2,
    target_set_value, hped0]
  exact min_eq_left hr0

/-- C2 witness: a concrete southbound car senses a pedestrian 35 units
ahead of its centre (squared distance 1225 < 1600) and commands a halt. -/
theorem pedestrian_halt_forces_zero_target_witness :
    (car_south.move sqrt_stub (some tl_green) [] [ped_ahead] []).1.target_speed = 0 :=
  pedestrian_halt_forces_zero_target car_south sqrt_stub (some tl_green) [] [ped_ahead]
    [] ped_ahead sqrt_stub_spec rfl rfl (List.mem_singleton.mpr rfl) rfl
    (by with_unfolding_all decide) (by with_unfolding_all decide)
    (by with_unfolding_all decide)

/-- One rule-layer call either leaves the ledger alone or appends the
caller's id, which was absent, at the end. -/
theorem check_traffic_rules_res (v : Vehicle) (light : Option TrafficLight)
    (cars : List Vehicle) (res : List ℕ) :
    (v.check_traffic_rules light cars res).2 = res ∨
    ((v.check_traffic_rules light cars res).2 = res ++ [v.vid] ∧ v.vid ∉ res) := by
  by_cases hmem : v.vid ∈ res
  · left
    unfold Vehicle.check_traffic_rules
    simp [hmem, apply_ite Prod.snd]
  · by_cases hband : -20 < v.dist_to_stop_line ∧ v.dist_to_stop_line < 60
    · by_cases hA : light = none ∧ v.is_emergency = false
      · left
        unfold Vehicle.check_traffic_rules
        simp [hA]
      · by_cases hB : v.signal_stop light = true
        · left
          unfold Vehicle.check_traffic_rules
          simp [hA, hB]
        · right
          refine ⟨?_, hmem⟩
          unfold Vehicle.check_traffic_rules
          simp [hA, hB, hband, hmem, apply_ite Prod.snd]
    · left
      unfold Vehicle.check_traffic_rules
      simp [hband, apply_ite Prod.snd]

/-- C3 (amended): the junction ledger never holds a vehicle twice and
keeps arrival order — one rule-layer call appends the caller's id at the
end only if absent, and the orchestrator's purge is an order-preserving
filter — and the rule layer commands a stop for every registered vehicle
that is inside the registration band (−20 < distance to stop line < 60)
with ledger rank above 1. -/
theorem junction_ledger_spec (light : Option TrafficLight) (v : Vehicle)
    (cars : List Vehicle) (res : List ℕ) :
    ((v.check_traffic_rules light cars res).2 = res ∨
      ((v.check_traffic_rules light cars res).2 = res ++ [v.vid] ∧ v.vid ∉ res)) ∧
    (res.Nodup → ((v.check_traffic_rules light cars res).2).Nodup) ∧
    (res.Nodup → (purge_reservation cars res).Nodup) ∧
    (purge_reservation cars res).Sublist res ∧
    (-20 < v.dist_to_stop_line → v.dist_to_stop_line < 60 → v.vid ∈ res →
      1 < res.indexOf v.vid → (v.check_traffic_rules light cars res).1 = 0) := by
  refine ⟨check_traffic_rules_res v light cars res, ?_, ?_, ?_, ?_⟩
  · intro hnd
    rcases check_traffic_rules_res v light cars res with h | ⟨h, hnm⟩ <;> rw [h]
    · exact hnd
    · simp [List.nodup_append, hnd, hnm]
  · intro hnd
    exact hnd.filter _
  · exact List.filter_sublist res
  · intro hb1 hb2 hmem hrank
    by_cases hA : light = none ∧ v.is_emergency = false
    · unfold Vehicle.check_traffic_rules
      simp [hA]
    · by_cases hB : v.signal_stop light = true
      · unfold Vehicle.check_traffic_rules
        simp [hA, hB]
      · unfold Vehicle.check_traffic_rules
        simp [hA, hB, hb1, hb2, hmem, hrank]

/-- C3 counterexample: `car_in_box` holds ledger rank 2 (id 5 behind ids
7 and 8) yet is commanded full speed, because it already sits 50 units
past its stop line — outside the −20..60 band in which the rank check
runs — with its centre inside the junction box. -/
theorem junction_rank_not_enforced_outside_band :
    ledger3.indexOf car_in_box.vid = 2 ∧ car_in_box.vid ∈ ledger3 ∧
    (car_in_box.check_traffic_rules (some tl_green) cars_ledger ledger3).1 =
      CAR_SPEED ∧ CAR_SPEED ≠ 0 := by
  refine ⟨?_, ?_, ?_, ?_⟩ <;> with_unfolding_all decide

/-- The freshly constructed controller satisfies the trace invariant. -/
theorem linv_init : LInv (init_light, 0) := by
  simp [LInv, init_light]

/-- Every `update`/`apply_action` step preserves the trace invariant. -/
theorem linv_step (s : TrafficLight × ℕ) (σ : LStep) (h : LInv s) :
    LInv (lstep s σ) := by
  obtain ⟨⟨st, t, em⟩, age⟩ := s
  obtain ⟨he, ht, hy⟩ := h
  have he2 : em = false := he
  have ht2 : t = age := ht
  subst he2 ht2
  have hy2 : (st = LightState.NS_YELLOW ∨ st = LightState.EW_YELLOW) →
      t < YELLOW_TIME := hy
  cases σ with
  | upd a b =>
      cases st <;>
        · simp only [lstep, TrafficLight.update]
          split_ifs with hg <;> simp_all [LInv, YELLOW_TIME] <;> omega
  | act a =>
      cases st <;>
        · simp only [lstep, TrafficLight.apply_action]
          split_ifs with h1 h2 <;> simp_all [LInv, YELLOW_TIME]

/-- Every state reached by a trace of `update`/`apply_action` calls from
the initial controller satisfies the invariant. -/
theorem linv_run (steps : List LStep) : LInv (lrun steps) := by
  have hgen : ∀ (l : List LStep) (s : TrafficLight × ℕ), LInv s →
      LInv (l.foldl lstep s) := by
    intro l
    induction l with
    | nil => intro s hs; exact hs
    | cons σ rest ih =>
        intro s hs
        exact ih _ (linv_step s σ hs)
  exact hgen steps _ linv_init

/-- One-step phase-change characterisation under the invariant: a change
follows the 4-cycle, a green phase is only left with at least the
minimum green's worth of ticks on the clock, and a yellow phase is left
exactly by the `update` tick that completes the fixed yellow duration. -/
theorem lstep_spec (s : TrafficLight × ℕ) (σ : LStep) (h : LInv s) :
    ((lstep s σ).1.state ≠ s.1.state →
      (lstep s σ).1.state = next_phase s.1.state) ∧
    ((s.1.state = .NS_GREEN ∨ s.1.state = .EW_GREEN) →
      (lstep s σ).1.state ≠ s.1.state → MIN_GREEN_TIME ≤ s.2) ∧
    ((s.1.state = .NS_YELLOW ∨ s.1.state = .EW_YELLOW) →
      ((lstep s σ).1.state ≠ s.1.state ↔
        (∃ a b, σ = .upd a b) ∧ s.2 + 1 = YELLOW_TIME)) := by
  obtain ⟨⟨st, t, em⟩, age⟩ := s
  obtain ⟨he, ht, hy⟩ := h
  have he2 : em = false := he
  have ht2 : t = age := ht
  subst he2 ht2
  have hy2 : (st = LightState.NS_YELLOW ∨ st = LightState.EW_YELLOW) →
      t < YELLOW_TIME := hy
  cases σ with
  | upd a b =>
      cases st <;>
        · simp only [lstep, TrafficLight.update]
          split_ifs with hg <;>
            refine ⟨?_, ?_, ?_⟩ <;> intros <;> simp_all [next_phase] <;> omega
  | act a =>
      cases st <;>
        · simp only [lstep, TrafficLight.apply_action]
          split_ifs with h1 h2 <;>
            refine ⟨?_, ?_, ?_⟩ <;> intros <;> simp_all [next_phase]

/-- C1: along every trace of `update`/`apply_action` calls from the
fresh controller (never under emergency override, since these calls do
not set it), a phase change always steps to the successor in the cycle
NS_GREEN → NS_YELLOW → EW_GREEN → EW_YELLOW → NS_GREEN (no phase is
skipped); a green phase is left only once at least `MIN_GREEN_TIME`
update ticks were spent in it; and a yellow phase is left exactly by the
update tick that completes `YELLOW_TIME` ticks in it — so every yellow
lasts exactly the fixed yellow duration (the ghost counter of `lrun`
counts the update ticks spent in the current phase). -/
theorem signal_cycle_spec (steps : List LStep) (σ : LStep) :
    ((lstep (lrun steps) σ).1.state ≠ (lrun steps).1.state →
      (lstep (lrun steps) σ).1.state = next_phase (lrun steps).1.state) ∧
    (((lrun steps).1.state = .NS_GREEN ∨ (lrun steps).1.state = .EW_GREEN) →
      (lstep (lrun steps) σ).1.state ≠ (lrun steps).1.state →
      MIN_GREEN_TIME ≤ (lrun steps).2) ∧
    (((lrun steps).1.state = .NS_YELLOW ∨ (lrun steps).1.state = .EW_YELLOW) →
      ((lstep (lrun steps) σ).1.state ≠ (lrun steps).1.state ↔
        (∃ a b, σ = .upd a b) ∧ (lrun steps).2 + 1 = YELLOW_TIME)) :=
  lstep_spec (lrun steps) σ (linv_run steps)
